import Mathlib

/-
Verification development for the HERBIE repository.

This file gives a shallow embedding, in Lean 4, of the command-execution and
phased project-setup core of the repository:

  * frameworkManager.py   — framework catalog, dependency checking,
                            version extraction and comparison;
  * ultimateEnhancedHerbie.py — RealCommandExecutor.execute_command and
                            EnhancedIntelligentCLIManager.execute_framework_setup_real;
  * herbie.py             — GitHubRepoCreator.push_local_to_repo,
                            push_local_to_repo_alternative and the upload step of
                            HerbieAgent._execute_project_creation.

External effects (subprocess outcomes, filesystem queries, HTTP responses) are
supplied by explicit environment records; Python exceptions are modelled with
the Except monad, where an error value carries the exception text.  Wall-clock
timing fields are carried in the record shapes but modelled as 0 (no property
below depends on elapsed time).
-/

set_option linter.unusedVariables false

namespace Herbie

/-! Python string primitives used by the embedded code. -/

/-- Boolean prefix test on character lists (used to model `str.replace` scanning). -/
def isPfx : List Char → List Char → Bool
  | [], _ => true
  | _ :: _, [] => false
  | a :: as, b :: bs => a = b && isPfx as bs

/-- Models Python `str.replace(old, new)` (all occurrences, left to right,
non-overlapping), written with an explicit fuel argument so that recursion is
structural; `replaceAllL` instantiates the fuel with the list length, which
always suffices because every step consumes at least one character. -/
def replaceFuel (pat repl : List Char) : Nat → List Char → List Char
  | _, [] => []
  | 0, s => s
  | fuel + 1, c :: rest =>
    match pat with
    | [] => c :: rest
    | _ :: ps =>
      if isPfx pat (c :: rest) then repl ++ replaceFuel pat repl fuel (rest.drop ps.length)
      else c :: replaceFuel pat repl fuel rest

/-- Python `s.replace(pat, repl)` on character lists. -/
def replaceAllL (pat repl s : List Char) : List Char :=
  replaceFuel pat repl s.length s

/-- Python `str.strip()` (whitespace from both ends). -/
def stripWs (s : List Char) : List Char :=
  ((s.dropWhile Char.isWhitespace).reverse.dropWhile Char.isWhitespace).reverse

/-- Python `s.split('.')`: note `"".split('.') == [""]` and a trailing dot
produces a trailing empty component. -/
def splitDotL : List Char → List (List Char)
  | [] => [[]]
  | c :: rest =>
    if c = '.' then [] :: splitDotL rest
    else
      match splitDotL rest with
      | [] => [[c]]
      | g :: gs => (c :: g) :: gs

/-- Digit-run parser for Python `int(...)`: decimal digits with single
underscores allowed between digits (CPython's integer literal grammar). -/
def pyDigitsAux : Nat → List Char → Option Nat
  | acc, [] => some acc
  | acc, '_' :: c :: rest =>
    if c.isDigit then pyDigitsAux (acc * 10 + (c.toNat - 48)) rest else none
  | _, ['_'] => none
  | acc, c :: rest =>
    if c.isDigit then pyDigitsAux (acc * 10 + (c.toNat - 48)) rest else none

/-- Models Python `int(s)` on a string: strip whitespace, optional sign, then a
digit run; `none` models a raised `ValueError`. -/
def pyIntL (s : List Char) : Option Int :=
  match stripWs s with
  | '+' :: c :: rest =>
    if c.isDigit then (pyDigitsAux (c.toNat - 48) rest).map Int.ofNat else none
  | '-' :: c :: rest =>
    if c.isDigit then (pyDigitsAux (c.toNat - 48) rest).map (fun n => -(Int.ofNat n)) else none
  | c :: rest =>
    if c.isDigit then (pyDigitsAux (c.toNat - 48) rest).map Int.ofNat else none
  | [] => none

/-- Python list comparison `a >= b` (lexicographic). -/
def pyListGe : List Int → List Int → Bool
  | _, [] => true
  | [], _ :: _ => false
  | a :: as, b :: bs => if a > b then true else if a < b then false else pyListGe as bs

/-- Python truthiness of an optional string (`None` and `""` are falsy). -/
def pyTruthy : Option String → Bool
  | some s => s ≠ ""
  | none => false

/-- Python `a or b` for an optional string `a` and a string `b`. -/
def pyOrStr : Option String → String → String
  | some s, b => if s = "" then b else s
  | none, b => b

/-- Python `s.startswith(pre)`. -/
def pyStartsWith (pre s : String) : Bool :=
  isPfx pre.data s.data

/-- Python `template.format(project_name=name)` for the catalog's command
templates, whose only placeholder is `{project_name}`. -/
def pyFormat (template name : String) : String :=
  String.mk (replaceAllL "{project_name}".data name.data template.data)

/-! Embedding of IntelligentCLIManager._compare_versions (frameworkManager.py,
lines 458-475). -/

/-- The local variable `required_clean` of `_compare_versions`:
`required.replace('>=', '').replace('>', '').replace('=', '').strip()`. -/
def required_clean (required : List Char) : List Char :=
  stripWs (replaceAllL "=".data [] (replaceAllL ">".data [] (replaceAllL ">=".data [] required)))

/-- The list comprehension `[int(x) for x in s.split('.')]`;
`none` models the `ValueError` raised by `int` on a non-numeric component. -/
def parsePartsL (s : List Char) : Option (List Int) :=
  (splitDotL s).mapM pyIntL

/-- Zero padding: `parts.extend([0] * (max_len - len(parts)))`. -/
def padTo (n : Nat) (l : List Int) : List Int :=
  l ++ List.replicate (n - l.length) 0

/-- Embeds `IntelligentCLIManager._compare_versions(current, required)`:
strip comparison operators from `required`, split both on dots, parse the
integer components, pad with zeros to equal length and compare `>=`; any
exception (non-numeric component) yields `True`. -/
def _compare_versions (current required : String) : Bool :=
  let rc := required_clean required.data
  match parsePartsL current.data, parsePartsL rc with
  | some cp, some rp =>
    pyListGe (padTo (max cp.length rp.length) cp) (padTo (max cp.length rp.length) rp)
  | _, _ => true

/-! Embedding of IntelligentCLIManager._extract_version (frameworkManager.py,
lines 438-456).  The source tries, in order, the regex patterns
1. `v?(\d+\.\d+\.\d+)`  2. `version\s+(\d+\.\d+\.\d+)`  3. `(\d+\.\d+\.\d+)`
4. `v?(\d+\.\d+)`  5. `(\d+\.\d+)`
with `re.search` and `re.IGNORECASE`, returning group 1 of the first pattern
that matches.  Because `\d+` is followed by characters disjoint from digits,
greedy maximal-munch matching is exact for these patterns, so `re.search` is
the leftmost position at which the maximal-munch matcher succeeds. -/

/-- Maximal run of decimal digits and the remainder. -/
def takeDigitsL (s : List Char) : List Char × List Char :=
  (s.takeWhile Char.isDigit, s.dropWhile Char.isDigit)

/-- Matches `\d+\.\d+\.\d+` at the start of `s`, returning the matched text. -/
def matchTriple (s : List Char) : Option (List Char) :=
  let (d1, r1) := takeDigitsL s
  if d1 = [] then none
  else
    match r1 with
    | '.' :: r2 =>
      let (d2, r3) := takeDigitsL r2
      if d2 = [] then none
      else
        match r3 with
        | '.' :: r4 =>
          let (d3, _) := takeDigitsL r4
          if d3 = [] then none else some (d1 ++ '.' :: d2 ++ '.' :: d3)
        | _ => none
    | _ => none

/-- Matches `\d+\.\d+` at the start of `s`, returning the matched text. -/
def matchPair (s : List Char) : Option (List Char) :=
  let (d1, r1) := takeDigitsL s
  if d1 = [] then none
  else
    match r1 with
    | '.' :: r2 =>
      let (d2, _) := takeDigitsL r2
      if d2 = [] then none else some (d1 ++ '.' :: d2)
    | _ => none

/-- Case-insensitive literal prefix match, returning the remainder. -/
def stripPfxCI : List Char → List Char → Option (List Char)
  | [], s => some s
  | _ :: _, [] => none
  | a :: as, b :: bs => if a.toLower = b.toLower then stripPfxCI as bs else none

/-- Matches `version\s+(\d+\.\d+\.\d+)` (ignorecase) at the start of `s`,
returning group 1. -/
def matchVersionWord (s : List Char) : Option (List Char) :=
  match stripPfxCI "version".data s with
  | none => none
  | some r1 =>
    if r1.takeWhile Char.isWhitespace = [] then none
    else matchTriple (r1.dropWhile Char.isWhitespace)

/-- Leftmost search for a pattern of the shape `v?(<m>)` (ignorecase): at each
position, an initial `v`/`V` is consumed greedily; the empty alternative of
`v?` can never succeed where the greedy one failed, because `m` only matches
digit-initial text. -/
def searchOptV (m : List Char → Option (List Char)) : List Char → Option (List Char)
  | [] => none
  | c :: rest =>
    match (if c = 'v' ∨ c = 'V' then m rest else m (c :: rest)) with
    | some r => some r
    | none => searchOptV m rest

/-- Leftmost search for a plain pattern. -/
def searchPlain (m : List Char → Option (List Char)) : List Char → Option (List Char)
  | [] => none
  | c :: rest =>
    match m (c :: rest) with
    | some r => some r
    | none => searchPlain m rest

/-- Embeds `IntelligentCLIManager._extract_version(output)`. -/
def _extract_version (output : String) : Option String :=
  let s := output.data
  match searchOptV matchTriple s with
  | some r => some (String.mk r)
  | none =>
    match searchPlain matchVersionWord s with
    | some r => some (String.mk r)
    | none =>
      match searchPlain matchTriple s with
      | some r => some (String.mk r)
      | none =>
        match searchOptV matchPair s with
        | some r => some (String.mk r)
        | none => (searchPlain matchPair s).map String.mk

/-! Embedding of the framework catalog (EnhancedFrameworkDatabase.FRAMEWORKS,
frameworkManager.py lines 45-368) and of dependency checking
(IntelligentCLIManager.check_dependency, lines 387-436). -/

inductive DependencyStatus
  | available
  | missing
  | outdated
  | unknown
deriving DecidableEq

/-- The DependencyInfo dataclass (frameworkManager.py lines 22-29). -/
structure DependencyInfo where
  name : String
  status : DependencyStatus
  current_version : Option String := none
  required_version : Option String := none
  install_command : Option String := none
  check_command : Option String := none
deriving DecidableEq

/-- The FrameworkSetupResult dataclass exactly as declared in
frameworkManager.py lines 32-39.  Note it has no `project_name` and no
`framework` field. -/
structure FrameworkSetupResult where
  success : Bool
  message : String
  dependencies : List DependencyInfo
  setup_commands : List String
  next_steps : List String
  troubleshooting : Option String := none
deriving DecidableEq

/-- One dependency entry of the catalog. -/
structure DependencyDescriptor where
  name : String
  check_command : String
  required_version : Option String
  install_commands : List (String × String)
deriving DecidableEq

/-- One framework entry of the catalog. -/
structure FrameworkInfo where
  name : String
  description : String
  primary_commands : List String
  dependencies : List DependencyDescriptor
  setup_commands : List String
  dev_server_port : Option Nat
deriving DecidableEq

/-- Python `dict.get(key)` on an association list. -/
def dictGet (m : List (String × String)) (k : String) : Option String :=
  match m.find? (fun p => p.1 = k) with
  | some p => some p.2
  | none => none

def nodeInstall : List (String × String) :=
  [("windows", "Descarga desde https://nodejs.org/"),
   ("linux", "curl -fsSL https://deb.nodesource.com/setup_lts.x | sudo -E bash - && sudo apt-get install -y nodejs"),
   ("darwin", "brew install node")]

def includedWithNode : List (String × String) :=
  [("windows", "Incluido con Node.js"), ("linux", "Incluido con Node.js"),
   ("darwin", "Incluido con Node.js")]

def pythonInstall : List (String × String) :=
  [("windows", "Descarga desde https://python.org/downloads/"),
   ("linux", "sudo apt-get install python3 python3-pip"),
   ("darwin", "brew install python")]

def includedWithPython : List (String × String) :=
  [("windows", "Incluido con Python"), ("linux", "Incluido con Python"),
   ("darwin", "Incluido con Python")]

def includedWithRuby : List (String × String) :=
  [("windows", "Incluido con Ruby"), ("linux", "Incluido con Ruby"),
   ("darwin", "Incluido con Ruby")]

def includedWithFlutter : List (String × String) :=
  [("windows", "Incluido con Flutter"), ("linux", "Incluido con Flutter"),
   ("darwin", "Incluido con Flutter")]

/-- The static FRAMEWORKS table of EnhancedFrameworkDatabase. -/
def FRAMEWORKS : List (String × FrameworkInfo) :=
  [("react",
    { name := "React"
      description := "Framework JavaScript para crear interfaces de usuario interactivas, los nombres de proyectos no pueden empezar con mayusculas."
      primary_commands := ["npx create-react-app {project_name}",
                           "npm create vite@latest {project_name} -- --template react"]
      dependencies :=
        [{ name := "node", check_command := "node --version",
           required_version := some ">=14.0.0", install_commands := nodeInstall },
         { name := "npm", check_command := "npm --version",
           required_version := some ">=6.0.0", install_commands := includedWithNode }]
      setup_commands := ["cd {project_name}", "npm install"]
      dev_server_port := some 3000 }),
   ("vue",
    { name := "Vue.js"
      description := "Framework JavaScript progresivo para crear aplicaciones web"
      primary_commands := ["npm create vue@latest {project_name}", "vue create {project_name}"]
      dependencies :=
        [{ name := "node", check_command := "node --version",
           required_version := some ">=16.0.0", install_commands := nodeInstall },
         { name := "npm", check_command := "npm --version",
           required_version := some ">=7.0.0", install_commands := includedWithNode }]
      setup_commands := ["cd {project_name}", "npm install", "npm run dev"]
      dev_server_port := some 5173 }),
   ("angular",
    { name := "Angular"
      description := "Framework TypeScript para crear aplicaciones web robustas"
      primary_commands := ["ng new {project_name} --routing --style=css"]
      dependencies :=
        [{ name := "node", check_command := "node --version",
           required_version := some ">=18.0.0", install_commands := nodeInstall },
         { name := "angular-cli", check_command := "ng version",
           required_version := some ">=15.0.0",
           install_commands :=
             [("windows", "npm install -g @angular/cli"),
              ("linux", "sudo npm install -g @angular/cli"),
              ("darwin", "npm install -g @angular/cli")] }]
      setup_commands := ["cd {project_name}", "ng serve"]
      dev_server_port := some 4200 }),
   ("nextjs",
    { name := "Next.js"
      description := "Framework React para aplicaciones web con SSR y generación estática"
      primary_commands := ["npx create-next-app@latest {project_name}",
                           "npm create next-app@latest {project_name}"]
      dependencies :=
        [{ name := "node", check_command := "node --version",
           required_version := some ">=18.0.0", install_commands := nodeInstall },
         { name := "npm", check_command := "npm --version",
           required_version := some ">=8.0.0", install_commands := includedWithNode }]
      setup_commands := ["cd {project_name}", "npm run dev"]
      dev_server_port := some 3000 }),
   ("django",
    { name := "Django"
      description := "Framework Python para desarrollo web con baterías incluidas"
      primary_commands := ["django-admin startproject {project_name}",
                           "python -m django startproject {project_name}"]
      dependencies :=
        [{ name := "python", check_command := "python --version",
           required_version := some ">=3.8.0", install_commands := pythonInstall },
         { name := "pip", check_command := "pip --version",
           required_version := some ">=20.0.0", install_commands := includedWithPython },
         { name := "django", check_command := "django-admin --version",
           required_version := some ">=4.0.0",
           install_commands :=
             [("windows", "pip install django"), ("linux", "pip install django"),
              ("darwin", "pip install django")] }]
      setup_commands := ["cd {project_name}", "python manage.py migrate",
                         "python manage.py runserver"]
      dev_server_port := some 8000 }),
   ("fastapi",
    { name := "FastAPI"
      description := "Framework Python moderno para crear APIs rápidas y robustas"
      primary_commands := ["mkdir {project_name} && cd {project_name}", "fastapi dev main.py"]
      dependencies :=
        [{ name := "python", check_command := "python --version",
           required_version := some ">=3.8.0", install_commands := pythonInstall },
         { name := "pip", check_command := "pip --version",
           required_version := some ">=20.0.0", install_commands := includedWithPython },
         { name := "fastapi",
           check_command := "python -c \"import fastapi; print(fastapi.__version__)\"",
           required_version := some ">=0.100.0",
           install_commands :=
             [("windows", "pip install fastapi[all]"), ("linux", "pip install fastapi[all]"),
              ("darwin", "pip install fastapi[all]")] }]
      setup_commands := ["cd {project_name}", "pip install fastapi[all]", "fastapi dev main.py"]
      dev_server_port := some 8000 }),
   ("rails",
    { name := "Ruby on Rails"
      description := "Framework Ruby para desarrollo web rápido y elegante"
      primary_commands := ["rails new {project_name}",
                           "gem install rails && rails new {project_name}"]
      dependencies :=
        [{ name := "ruby", check_command := "ruby --version",
           required_version := some ">=3.0.0",
           install_commands :=
             [("windows", "Descarga desde https://rubyinstaller.org/"),
              ("linux", "sudo apt-get install ruby-full"), ("darwin", "brew install ruby")] },
         { name := "gem", check_command := "gem --version",
           required_version := some ">=3.0.0", install_commands := includedWithRuby },
         { name := "rails", check_command := "rails --version",
           required_version := some ">=7.0.0",
           install_commands :=
             [("windows", "gem install rails"), ("linux", "gem install rails"),
              ("darwin", "gem install rails")] }]
      setup_commands := ["cd {project_name}", "bundle install", "rails server"]
      dev_server_port := some 3000 }),
   ("flutter",
    { name := "Flutter"
      description := "Framework de Google para crear aplicaciones móviles multiplataforma"
      primary_commands := ["flutter create {project_name}",
                           "flutter create --platforms=android,ios {project_name}"]
      dependencies :=
        [{ name := "flutter", check_command := "flutter --version",
           required_version := some ">=3.0.0",
           install_commands :=
             [("windows", "Descarga Flutter SDK desde https://flutter.dev/docs/get-started/install/windows"),
              ("linux", "sudo snap install flutter --classic"),
              ("darwin", "brew install flutter")] },
         { name := "dart", check_command := "dart --version",
           required_version := some ">=2.17.0", install_commands := includedWithFlutter }]
      setup_commands := ["cd {project_name}", "flutter pub get", "flutter run"]
      dev_server_port := none })]

/-- Python `str.lower()`, written characterwise. -/
def pyLower (s : String) : String :=
  String.mk (s.data.map Char.toLower)

/-- Embeds `EnhancedFrameworkDatabase.get_framework_info` (lowercases the key,
then looks it up). -/
def get_framework_info (framework : String) : Option FrameworkInfo :=
  match FRAMEWORKS.find? (fun p => p.1 = pyLower framework) with
  | some p => some p.2
  | none => none

/-- Outcome of the `subprocess.run(check_command.split(), ...)` call inside
`check_dependency`: either the process ran and returned an exit code with its
captured stdout, or the call raised (timeout, spawn failure, ...). -/
inductive CheckRun
  | ran (returncode : Int) (stdout : String) (stderr : String)
  | exc (msg : String)
deriving DecidableEq

/-- Embeds `IntelligentCLIManager.check_dependency` (frameworkManager.py lines
387-436): classify one dependency from the outcome of its check command. -/
def check_dependency (os_type : String) (dep : DependencyDescriptor) (run : CheckRun) :
    DependencyInfo :=
  match run with
  | .exc _ =>
    { name := dep.name, status := .unknown,
      install_command := dictGet dep.install_commands os_type,
      check_command := some dep.check_command }
  | .ran rc out _ =>
    if rc = 0 then
      let current_version := _extract_version out
      let required_version := dep.required_version
      let status : DependencyStatus :=
        match required_version, current_version with
        | some r, some c => if _compare_versions c r then .available else .outdated
        | _, _ => .available
      { name := dep.name, status := status,
        current_version := current_version, required_version := required_version,
        install_command := dictGet dep.install_commands os_type,
        check_command := some dep.check_command }
    else
      { name := dep.name, status := .missing,
        install_command := dictGet dep.install_commands os_type,
        check_command := some dep.check_command }

/-- Checks a list of dependencies in order, the k-th against the environment's
k-th check-command outcome. -/
def checkDeps (os_type : String) (runs : Nat → CheckRun) :
    Nat → List DependencyDescriptor → List DependencyInfo
  | _, [] => []
  | k, d :: rest => check_dependency os_type d (runs k) :: checkDeps os_type runs (k + 1) rest

/-- Embeds `IntelligentCLIManager.check_framework_dependencies`. -/
def check_framework_dependencies (os_type framework : String) (runs : Nat → CheckRun) :
    List DependencyInfo :=
  match get_framework_info framework with
  | none => []
  | some fw => checkDeps os_type runs 0 fw.dependencies

/-! Embedding of RealCommandExecutor.execute_command
(ultimateEnhancedHerbie.py, lines 64-167). -/

/-- Outcome of the `subprocess.run(command, shell=True, ...)` call inside the
executor's try block: the process completed with an exit code, the call raised
`subprocess.TimeoutExpired`, or some other exception was raised inside the try
block (spawn failure, a failing `os.chdir`, ...). -/
inductive RunOutcome
  | completed (returncode : Int) (stdout stderr : String)
  | timedOut
  | raised (msg : String)
deriving DecidableEq

/-- The ExecutionResult dataclass (ultimateEnhancedHerbie.py lines 20-31).
`execution_time` and `timestamp` are wall-clock values, modelled as 0. -/
structure ExecutionResult where
  success : Bool
  command : String
  message : String
  output : String := ""
  error : String := ""
  execution_time : Nat := 0
  exit_code : Int := 0
  working_directory : String := ""
  timestamp : Nat := 0
deriving DecidableEq

/-- Process-wide mutable state touched by the executor: the working directory
(`os.getcwd`/`os.chdir`) and the executor's `execution_history` list. -/
structure ProcState where
  cwd : String
  execution_history : List ExecutionResult
deriving DecidableEq

/-- Filesystem oracle for the executor's `os.path.exists(working_dir)` test. -/
structure ExecEnv where
  path_exists : String → Bool

/-- Embeds `RealCommandExecutor.execute_command(command, timeout, working_dir,
phase)`.  The body saves `original_dir = os.getcwd()`, conditionally changes
into `working_dir`, runs the command, builds one ExecutionResult on each of the
three outcome paths (completed / TimeoutExpired / other exception), appends it
to `execution_history`, and in the `finally` block always restores
`original_dir`.  Returns the record and the updated process state. -/
def execute_command (env : ExecEnv) (command : String) (timeout : Nat)
    (working_dir : Option String) (outcome : RunOutcome) (st : ProcState) :
    ExecutionResult × ProcState :=
  let original_dir := st.cwd
  -- if working_dir and os.path.exists(working_dir): os.chdir(working_dir)
  let midCwd :=
    match working_dir with
    | some w => if w ≠ "" ∧ env.path_exists w then w else st.cwd
    | none => st.cwd
  -- working_directory=working_dir or original_dir
  let wdField := pyOrStr working_dir original_dir
  let exec_result : ExecutionResult :=
    match outcome with
    | .completed rc out err =>
      { success := rc = 0
        command := command
        message :=
          if rc = 0 then "Comando ejecutado exitosamente"
          else "Error en comando (código: " ++ toString rc ++ ")"
        output := out
        error := err
        exit_code := rc
        working_directory := wdField }
    | .timedOut =>
      { success := false
        command := command
        message := "Comando excedió tiempo límite (" ++ toString timeout ++ "s)"
        error := "Timeout"
        exit_code := -1
        working_directory := wdField }
    | .raised e =>
      { success := false
        command := command
        message := "Error inesperado: " ++ e
        error := e
        exit_code := -999
        working_directory := wdField }
  let stBody : ProcState :=
    { cwd := midCwd, execution_history := st.execution_history ++ [exec_result] }
  -- finally: os.chdir(original_dir)
  (exec_result, { stBody with cwd := original_dir })

/-! Embedding of the orchestrator
EnhancedIntelligentCLIManager.execute_framework_setup_real and its phase
helpers (ultimateEnhancedHerbie.py, lines 187-495). -/

/-- The ProjectExecutionContext dataclass (ultimateEnhancedHerbie.py lines
34-45); `setup_result` holds the orchestrator's final FrameworkSetupResult.
`total_execution_time` is wall-clock, modelled as 0. -/
structure ProjectExecutionContext where
  project_name : String
  framework : String
  local_path : Option String := none
  github_url : Option String := none
  execution_log : List ExecutionResult := []
  dependencies_verified : List DependencyInfo := []
  setup_result : Option FrameworkSetupResult := none
  total_execution_time : Nat := 0
  success : Bool := false
deriving DecidableEq

/-- Response of `requests.post("https://api.github.com/user/repos", ...)`. -/
structure HttpResponse where
  status_code : Int
  html_url : String
deriving DecidableEq

/-- Outcome of an HTTP request: a response, or a raised exception. -/
inductive HttpOutcome
  | resp (r : HttpResponse)
  | exc (msg : String)
deriving DecidableEq

/-- Environment of one orchestrator run: platform identifiers, the
`GITHUB_TOKEN` variable, and oracles for every external interaction, in the
order the source performs them. -/
structure OrchEnv where
  /-- `platform.system().lower()` (IntelligentCLIManager.os_type). -/
  os_type : String
  /-- `os.name` (used to choose `rm -rf` versus `rmdir /s /q`). -/
  os_name : String
  /-- `os.getenv('GITHUB_TOKEN')`. -/
  github_token : Option String
  /-- Outcome of the k-th dependency check subprocess. -/
  dep_runs : Nat → CheckRun
  /-- Outcome of the k-th command run through the executor. -/
  cmd_outcomes : Nat → RunOutcome
  /-- `os.path.exists` as consulted inside the executor. -/
  path_exists : String → Bool
  /-- `os.path.exists(project_name)` at the start of project creation. -/
  project_dir_exists : Bool
  /-- `os.path.exists(project_path)` after the scaffold command. -/
  project_path_exists : Bool
  /-- `os.path.abspath`. -/
  abspath : String → String
  /-- Outcome of the repo-creation POST in `_execute_github_setup`. -/
  create_repo : HttpOutcome
  /-- `_get_github_username()`: the login from GET /user, or None. -/
  user_response : Option String

/-- Runs one command through the executor with the environment's next command
outcome, threading the process state and the command counter. -/
def runCmd (env : OrchEnv) (cmd : String) (timeout : Nat) (wd : Option String)
    (sk : ProcState × Nat) : ExecutionResult × ProcState × Nat :=
  let (r, st2) := execute_command ⟨env.path_exists⟩ cmd timeout wd (env.cmd_outcomes sk.2) sk.1
  (r, st2, sk.2 + 1)

/-- Models the call expression
`FrameworkSetupResult(success=..., project_name=..., framework=...,
dependencies=..., setup_commands=..., next_steps=..., message=...)`
as written at every construction site in ultimateEnhancedHerbie.py (lines 218,
234, 267 and 487).  The dataclass declared in frameworkManager.py (lines
32-39) has no `project_name` and no `framework` parameter, so in Python this
call raises TypeError before any result object exists; the arguments are
evaluated and then discarded.  (The precise TypeError text varies with the
Python version; only the fact that a TypeError escapes matters below.) -/
def mkSetupResultUltimate (success : Bool) (project_name framework : String)
    (dependencies : List DependencyInfo) (setup_commands next_steps : List String)
    (message : String) : Except String FrameworkSetupResult :=
  .error "TypeError: __init__() got an unexpected keyword argument 'project_name'"

/-- The post-scaffold loop of `_execute_project_creation` (lines 316-331):
run each setup command (skipping `cd` commands) inside the project directory,
ignoring failures. -/
def runSetupCmds (env : OrchEnv) (project_name project_path : String) :
    List String → ProcState × Nat → ProcState × Nat
  | [], sk => sk
  | cmd :: rest, sk =>
    if pyStartsWith "cd " cmd then runSetupCmds env project_name project_path rest sk
    else
      let (_, st, k) := runCmd env (pyFormat cmd project_name) 300 (some project_path) sk
      runSetupCmds env project_name project_path rest (st, k)

/-- Scaffold part of `_execute_project_creation` (lines 296-333): run the
primary creation command, verify the directory exists, record `local_path`,
then run the post-scaffold setup commands.  The only statement that can raise
is the subscript `framework_info["primary_commands"][0]` (an IndexError on an
empty list — unreachable for catalog entries); an error value carries the
exception text together with the context and process state at the raise
point. -/
def scaffoldAndSetup (env : OrchEnv) (framework_info : FrameworkInfo)
    (project_name : String) (ctx : ProjectExecutionContext) (st : ProcState) (k : Nat) :
    Except (String × ProjectExecutionContext × ProcState × Nat)
      (Bool × ProjectExecutionContext × ProcState × Nat) :=
  match framework_info.primary_commands with
  | [] => .error ("IndexError: list index out of range", ctx, st, k)
  | c0 :: _ =>
    let primary_command := pyFormat c0 project_name
    let (r, st2, k2) := runCmd env primary_command 600 none (st, k)
    if ¬r.success then .ok (false, ctx, st2, k2)
    else
      let project_path := env.abspath project_name
      if ¬env.project_path_exists then .ok (false, ctx, st2, k2)
      else
        let ctx2 := { ctx with local_path := some project_path }
        let (st3, k3) :=
          runSetupCmds env project_name project_path framework_info.setup_commands (st2, k2)
        .ok (true, ctx2, st3, k3)

/-- Embeds `EnhancedIntelligentCLIManager._execute_project_creation` (lines
278-333): look up the framework, remove a pre-existing project directory, and
scaffold. -/
def _execute_project_creation (env : OrchEnv) (framework project_name : String)
    (ctx : ProjectExecutionContext) (st : ProcState) (k : Nat) :
    Except (String × ProjectExecutionContext × ProcState × Nat)
      (Bool × ProjectExecutionContext × ProcState × Nat) :=
  match get_framework_info framework with
  | none => .ok (false, ctx, st, k)
  | some framework_info =>
    -- remove a pre-existing project directory, failing the phase if that fails
    if env.project_dir_exists then
      let rmCmd :=
        if env.os_name ≠ "nt" then "rm -rf " ++ project_name
        else "rmdir /s /q " ++ project_name
      let (r, st1, k1) := runCmd env rmCmd 300 none (st, k)
      if ¬r.success then .ok (false, ctx, st1, k1)
      else scaffoldAndSetup env framework_info project_name ctx st1 k1
    else scaffoldAndSetup env framework_info project_name ctx st k

/-- Embeds `_execute_github_setup` (lines 335-375): POST the new repository;
on a 201 response record `html_url` in the context and return True; any other
status or any exception gives False (the function catches its own
exceptions). -/
def _execute_github_setup (env : OrchEnv) (ctx : ProjectExecutionContext) :
    Bool × ProjectExecutionContext :=
  match env.create_repo with
  | .exc _ => (false, ctx)
  | .resp r =>
    if r.status_code = 201 then (true, { ctx with github_url := some r.html_url })
    else (false, ctx)

/-- The ordered git command list of `_execute_code_upload` (lines 390-399). -/
def uploadCommands (username github_token project_name : String) : List String :=
  ["git init",
   "git config user.name '" ++ username ++ "'",
   "git config user.email '" ++ username ++ "@users.noreply.github.com'",
   "git remote add origin https://" ++ github_token ++ "@github.com/" ++ username ++ "/"
     ++ project_name ++ ".git",
   "git add .",
   "git commit -m \"Initial commit created by Enhanced Herbie\"",
   "git branch -M main",
   "git push -u origin main"]

/-- The command loop of `_execute_code_upload`: stop at the first failure. -/
def runUploadCmds (env : OrchEnv) (local_path : String) :
    List String → ProcState × Nat → Bool × ProcState × Nat
  | [], sk => (true, sk.1, sk.2)
  | cmd :: rest, sk =>
    let (r, st, k) := runCmd env cmd 120 (some local_path) sk
    if r.success then runUploadCmds env local_path rest (st, k)
    else (false, st, k)

/-- Embeds `_execute_code_upload` (lines 377-418): requires a local path and a
repository URL, resolves the GitHub username, then runs the git sequence in
the project directory; returns False as soon as a step fails, with no fallback
strategy (the function catches its own exceptions). -/
def _execute_code_upload (env : OrchEnv) (project_name github_token : String)
    (ctx : ProjectExecutionContext) (st : ProcState) (k : Nat) :
    Bool × ProcState × Nat :=
  if ¬(pyTruthy ctx.local_path) ∨ ¬(pyTruthy ctx.github_url) then (false, st, k)
  else
    match env.user_response with
    | none => (false, st, k)
    | some username =>
      let local_path := pyOrStr ctx.local_path ""
      runUploadCmds env local_path (uploadCommands username github_token project_name) (st, k)

/-- Embeds `_generate_final_setup_result` (lines 441-495): assembles the final
message and next steps from the context and the executor history, then calls
the FrameworkSetupResult constructor with `project_name=` and `framework=`
keyword arguments (line 487) — which raises TypeError. -/
def _generate_final_setup_result (ctx : ProjectExecutionContext) (st : ProcState) :
    Except String FrameworkSetupResult :=
  let message :=
    "🎉 ¡Proyecto '" ++ ctx.project_name ++ "' creado exitosamente!"
      ++ (match ctx.local_path with
          | some lp => "\n📁 Ruta local: " ++ lp
          | none => "")
      ++ (match ctx.github_url with
          | some u => "\n🌐 GitHub: " ++ u
          | none => "")
      ++ "\n⏱️ Tiempo total: " ++ toString ctx.total_execution_time ++ "s"
      ++ "\n📊 Comandos ejecutados: "
      ++ toString (st.execution_history.filter (fun r => r.success)).length
      ++ "/" ++ toString st.execution_history.length
  let next_steps : List String :=
    (match ctx.local_path with
     | some _ => ["1. Navegar al proyecto: cd " ++ ctx.project_name]
     | none => [])
      ++ (match get_framework_info ctx.framework with
          | none => []
          | some _ =>
            if ctx.framework = "react" then
              ["2. Iniciar servidor: npm start", "3. Abrir: http://localhost:3000",
               "4. Editar: src/App.js"]
            else if ctx.framework = "vue" then
              ["2. Iniciar servidor: npm run dev", "3. Abrir: http://localhost:5173",
               "4. Editar: src/App.vue"]
            else if ctx.framework = "django" then
              ["2. Iniciar servidor: python manage.py runserver",
               "3. Abrir: http://localhost:8000",
               "4. Crear app: python manage.py startapp myapp"]
            else [])
      ++ (match ctx.github_url with
          | some u => ["5. Ver repositorio: " ++ u]
          | none => [])
  mkSetupResultUltimate ctx.success ctx.project_name ctx.framework ctx.dependencies_verified
    (ctx.execution_log.map (fun r => r.command)) next_steps message

/-- Python `str(opt)`-style rendering of an optional install command, as it
appears in the f-string `f"Instalar {dep.name}: {dep.install_command}"`. -/
def optStr : Option String → String
  | some s => s
  | none => "None"

/-- The try-block body of `execute_framework_setup_real` (lines 209-263): the
five phases in order.  An error value models an exception propagating out of
the try block and carries the exception text together with the context and
process state at the raise point (the context object is mutated in place in
Python, so the handler sees all mutations made before the raise). -/
def setupBody (env : OrchEnv) (framework project_name : String)
    (ctx0 : ProjectExecutionContext) (st0 : ProcState) :
    Except (String × ProjectExecutionContext × ProcState)
      (ProjectExecutionContext × ProcState) :=
  -- FASE 1: dependency verification
  let deps := check_framework_dependencies env.os_type framework env.dep_runs
  let ctx1 := { ctx0 with dependencies_verified := deps }
  let missing_deps := deps.filter (fun d => d.status == DependencyStatus.missing)
  if missing_deps ≠ [] then
    match mkSetupResultUltimate false project_name framework deps []
        (missing_deps.map (fun d => "Instalar " ++ d.name ++ ": " ++ optStr d.install_command))
        ("❌ Dependencias faltantes: "
          ++ String.intercalate ", " (missing_deps.map (fun d => d.name))) with
    | .ok r => .ok ({ ctx1 with setup_result := some r }, st0)
    | .error e => .error (e, ctx1, st0)
  else
    -- FASE 2: project creation
    match _execute_project_creation env framework project_name ctx1 st0 0 with
    | .error (e, ctxE, stE, _) => .error (e, ctxE, stE)
    | .ok (project_created, ctx2, st2, k2) =>
      if ¬project_created then
        match mkSetupResultUltimate false project_name framework ctx2.dependencies_verified
            [] [] "❌ Error creando proyecto local" with
        | .ok r => .ok ({ ctx2 with setup_result := some r }, st2)
        | .error e => .error (e, ctx2, st2)
      else
        -- FASE 3 and 4: GitHub setup and code upload, only with a truthy token
        let (ctx3, st3, _k3) :=
          if pyTruthy env.github_token then
            let (github_created, ctxG) := _execute_github_setup env ctx2
            if github_created then
              let tok := pyOrStr env.github_token ""
              let (_, stU, kU) := _execute_code_upload env project_name tok ctxG st2 k2
              (ctxG, stU, kU)
            else (ctxG, st2, k2)
          else (ctx2, st2, k2)
        -- FASE 5: finalization
        let ctx4 := { ctx3 with success := true, total_execution_time := 0 }
        match _generate_final_setup_result ctx4 st3 with
        | .ok r => .ok ({ ctx4 with setup_result := some r }, st3)
        | .error e => .error (e, ctx4, st3)

/-- Embeds `execute_framework_setup_real(framework, project_name)` (lines
195-276): create the context, run the phased body, and catch any escaped
exception in the top-level handler — whose own FrameworkSetupResult
construction (line 267, with `project_name=`/`framework=` keyword arguments)
itself raises TypeError, which then escapes the call.  The first component is
the call's outcome: a returned context, or the text of the exception that
escaped to the caller. -/
def execute_framework_setup_real (env : OrchEnv) (framework project_name : String)
    (st0 : ProcState) : Except String ProjectExecutionContext × ProcState :=
  let ctx0 : ProjectExecutionContext := { project_name := project_name, framework := framework }
  match setupBody env framework project_name ctx0 st0 with
  | .ok (ctx, st) => (.ok ctx, st)
  | .error (e, ctx, st) =>
    match mkSetupResultUltimate false project_name framework ctx.dependencies_verified [] []
        ("❌ Error inesperado: " ++ e) with
    | .ok r => (.ok { ctx with setup_result := some r }, st)
    | .error e2 => (.error e2, st)

/-! Embedding of the code-upload step of the HerbieAgent flow (herbie.py):
GitHubRepoCreator.push_local_to_repo (lines 745-802),
push_local_to_repo_alternative (lines 804-848), and the fallback decision in
HerbieAgent._execute_project_creation (lines 1103-1107). -/

/-- Outcome of one `subprocess.run(cmd, check=True, ...)` git call: success,
a CalledProcessError (non-zero exit with check=True), a TimeoutExpired, or
another exception. -/
inductive GitRun
  | ok (stdout stderr : String)
  | calledProcessError (stderr : String)
  | timedOut
  | exc (msg : String)
deriving DecidableEq

/-- Observable action of the upload step: one git command of the primary push
sequence (as an argv list), or one `requests.put` to the GitHub contents API
for one file (identified by its repository-relative path). -/
inductive UploadAction
  | gitCmd (argv : List String)
  | apiPut (relative_path : String)
deriving DecidableEq

/-- One file yielded by `os.walk(repo_name)` (after the source's pruning of
dot-directories and node_modules): the directory it was found in and its
basename. -/
structure WalkFile where
  root : String
  file : String
deriving DecidableEq

/-- Environment of the upload step: credentials, and oracles for the
filesystem walk, file reads, git subprocesses and HTTP calls. -/
structure PushEnv where
  /-- GitHubRepoCreator.username. -/
  username : String
  /-- GitHubRepoCreator.github_token. -/
  github_token : String
  /-- `os.path.exists(repo_name)`. -/
  dir_exists : String → Bool
  /-- Outcome of the k-th git subprocess (the two `_setup_git_config` calls
  first, then the six push commands). -/
  git_runs : Nat → GitRun
  /-- Files yielded by `os.walk` after directory pruning, in walk order. -/
  walk : List WalkFile
  /-- `open(file_path, 'rb').read()`; `none` models a raised exception while
  processing the file (skipped with a warning). -/
  read_file : String → Option String
  /-- HTTP status of the `requests.put` for a given relative path. -/
  put_status : String → Int
  /-- Exception text if `os.walk` itself raises; caught by the outer handler
  of `push_local_to_repo_alternative`. -/
  walk_exc : Option String
  /-- `os.path.join`. -/
  joinpath : String → String → String
  /-- `os.path.relpath(path, start)`. -/
  relpath : String → String → String

/-- The six git commands of `push_local_to_repo` (herbie.py lines 759-766). -/
def pushCommands (username github_token repo_name : String) : List (List String) :=
  [["git", "init"],
   ["git", "remote", "add", "origin",
    "https://" ++ github_token ++ "@github.com/" ++ username ++ "/" ++ repo_name ++ ".git"],
   ["git", "add", "."],
   ["git", "commit", "-m", "Initial commit - Created by Herbie Agent"],
   ["git", "branch", "-M", "main"],
   ["git", "push", "-u", "origin", "main"]]

/-- The command loop of `push_local_to_repo` with `check=True`: the first
CalledProcessError / TimeoutExpired / other exception aborts the sequence
(caught by the function's handlers, which restore the directory and return
False). -/
def runPushCmds (env : PushEnv) : List (List String) → Nat → List UploadAction →
    Bool × List UploadAction
  | [], _, acc => (true, acc)
  | c :: rest, k, acc =>
    match env.git_runs k with
    | .ok _ _ => runPushCmds env rest (k + 1) (acc ++ [UploadAction.gitCmd c])
    | _ => (false, acc ++ [UploadAction.gitCmd c])

/-- Embeds `GitHubRepoCreator.push_local_to_repo(repo_name)` (herbie.py lines
745-802): require the directory, change into it, run `_setup_git_config`
(two git config calls whose failures are swallowed by its own handler, herbie.py
lines 736-743, consuming outcomes 0 and 1), then run the six push commands
(outcomes 2 onward), returning whether all succeeded together with the trace
of attempted git commands. -/
def push_local_to_repo (env : PushEnv) (repo_name : String) : Bool × List UploadAction :=
  if ¬env.dir_exists repo_name then (false, [])
  else
    let configActs : List UploadAction :=
      [UploadAction.gitCmd ["git", "config", "user.name", env.username],
       UploadAction.gitCmd
         ["git", "config", "user.email", env.username ++ "@users.noreply.github.com"]]
    let (ok, acts) := runPushCmds env (pushCommands env.username env.github_token repo_name) 2 []
    (ok, configActs ++ acts)

/-- The file loop of `push_local_to_repo_alternative` (herbie.py lines
813-841): skip dot-files, skip files whose processing raises, and PUT every
other file to the contents API (a non-2xx status is only logged). -/
def altUploadActs (env : PushEnv) (repo_name : String) : List WalkFile → List UploadAction
  | [] => []
  | wf :: rest =>
    if pyStartsWith "." wf.file then altUploadActs env repo_name rest
    else
      match env.read_file (env.joinpath wf.root wf.file) with
      | none => altUploadActs env repo_name rest
      | some _ =>
        UploadAction.apiPut (env.relpath (env.joinpath wf.root wf.file) repo_name)
          :: altUploadActs env repo_name rest

/-- Embeds `GitHubRepoCreator.push_local_to_repo_alternative(repo_name)`
(herbie.py lines 804-848): require the directory, walk it uploading each
eligible file through the GitHub contents API, and return True unless the
walk itself raised (outer handler). -/
def push_local_to_repo_alternative (env : PushEnv) (repo_name : String) :
    Bool × List UploadAction :=
  if ¬env.dir_exists repo_name then (false, [])
  else
    match env.walk_exc with
    | some _ => (false, [])
    | none => (true, altUploadActs env repo_name env.walk)

/-- Embeds the upload step of `HerbieAgent._execute_project_creation`
(herbie.py lines 1103-1107):
`upload_success = push_local_to_repo(...)`, and if that is falsy,
`upload_success = push_local_to_repo_alternative(...)` — with no user
interaction between the two calls.  Returns the final success flag and the
concatenated action trace. -/
def upload_code_step (env : PushEnv) (repo_name : String) : Bool × List UploadAction :=
  let r1 := push_local_to_repo env repo_name
  if r1.1 then (true, r1.2)
  else
    let r2 := push_local_to_repo_alternative env repo_name
    (r2.1, r1.2 ++ r2.2)

/-! Observation helpers for the orchestrator's exception monad. -/

/-- Text of the exception carried by an errored phase body, if any. -/
def bodyErrText :
    Except (String × ProjectExecutionContext × ProcState)
      (ProjectExecutionContext × ProcState) → Option String
  | .error (e, _, _) => some e
  | .ok _ => none

/-- Context at the raise point of an errored phase body, if any. -/
def bodyErrCtx :
    Except (String × ProjectExecutionContext × ProcState)
      (ProjectExecutionContext × ProcState) → Option ProjectExecutionContext
  | .error (_, c, _) => some c
  | .ok _ => none

/-- Process state at the raise point of an errored phase body, if any. -/
def bodyErrSt :
    Except (String × ProjectExecutionContext × ProcState)
      (ProjectExecutionContext × ProcState) → Option ProcState
  | .error (_, _, s) => some s
  | .ok _ => none

/-! Concrete environments used to evaluate the embedded code at specific
inputs. -/

/-- Linux run of framework "django": python and pip check out fine, the
django check succeeds with stdout "3.0.0" (required ">=4.0.0", hence
Outdated); every executor command succeeds; no GITHUB_TOKEN. -/
def envC1 : OrchEnv :=
  { os_type := "linux", os_name := "posix", github_token := none,
    dep_runs := fun k =>
      if k = 0 then CheckRun.ran 0 "Python 3.10.4" ""
      else if k = 1 then CheckRun.ran 0 "pip 23.0.1 from /usr/lib" ""
      else CheckRun.ran 0 "3.0.0" "",
    cmd_outcomes := fun _ => RunOutcome.completed 0 "" "",
    path_exists := fun _ => true, project_dir_exists := false,
    project_path_exists := true, abspath := fun s => "/home/user/" ++ s,
    create_repo := HttpOutcome.exc "not reached", user_response := none }

/-- Linux run of framework "react" in which the node check command exits 1
(dependency Missing) and the npm check succeeds. -/
def envC2 : OrchEnv :=
  { os_type := "linux", os_name := "posix", github_token := none,
    dep_runs := fun k =>
      if k = 0 then CheckRun.ran 1 "" "node: command not found"
      else CheckRun.ran 0 "9.6.7" "",
    cmd_outcomes := fun _ => RunOutcome.completed 0 "" "",
    path_exists := fun _ => true, project_dir_exists := false,
    project_path_exists := true, abspath := fun s => "/home/user/" ++ s,
    create_repo := HttpOutcome.exc "not reached", user_response := none }

/-- Linux run of framework "react": dependencies fine, scaffold succeeds, a
GITHUB_TOKEN is present, but the repository-creation POST answers 422
(name collision) so the remote is never created. -/
def envC5 : OrchEnv :=
  { os_type := "linux", os_name := "posix", github_token := some "ghp_secret",
    dep_runs := fun k =>
      if k = 0 then CheckRun.ran 0 "v18.12.0" ""
      else CheckRun.ran 0 "9.6.7" "",
    cmd_outcomes := fun _ => RunOutcome.completed 0 "" "",
    path_exists := fun _ => true, project_dir_exists := false,
    project_path_exists := true, abspath := fun s => "/home/user/" ++ s,
    create_repo := HttpOutcome.resp { status_code := 422, html_url := "" },
    user_response := none }

/-- Linux run of framework "react": dependencies fine, scaffold succeeds, no
GITHUB_TOKEN; the run executes exactly two commands (scaffold and
npm install). -/
def envC6 : OrchEnv :=
  { os_type := "linux", os_name := "posix", github_token := none,
    dep_runs := fun k =>
      if k = 0 then CheckRun.ran 0 "v18.12.0" ""
      else CheckRun.ran 0 "9.6.7" "",
    cmd_outcomes := fun _ => RunOutcome.completed 0 "" "",
    path_exists := fun _ => true, project_dir_exists := false,
    project_path_exists := true, abspath := fun s => "/home/user/" ++ s,
    create_repo := HttpOutcome.exc "not reached", user_response := none }

/-- Environment for the code-upload phase of the Enhanced orchestrator in
which the very first git command fails. -/
def envC9u : OrchEnv :=
  { os_type := "linux", os_name := "posix", github_token := some "ghp_secret",
    dep_runs := fun _ => CheckRun.ran 0 "" "",
    cmd_outcomes := fun _ => RunOutcome.completed 128 "" "fatal: not a git repository",
    path_exists := fun _ => true, project_dir_exists := false,
    project_path_exists := true, abspath := fun s => "/home/user/" ++ s,
    create_repo := HttpOutcome.resp { status_code := 201, html_url := "https://github.com/u/demo" },
    user_response := some "u" }

/-- Context entering the Enhanced orchestrator's code-upload phase: scaffold
succeeded and the remote repository exists. -/
def ctxC9u : ProjectExecutionContext :=
  { project_name := "demo", framework := "react",
    local_path := some "/home/user/demo",
    github_url := some "https://github.com/u/demo" }

/-- Environment for the HerbieAgent upload step in which the git push
sequence fails at its first command and the walk yields one eligible file. -/
def envC9w : PushEnv :=
  { username := "u", github_token := "ghp_secret",
    dir_exists := fun _ => true,
    git_runs := fun k => if k < 2 then GitRun.ok "" "" else GitRun.calledProcessError "fatal",
    walk := [{ root := "demo", file := "README.md" }],
    read_file := fun _ => some "hello",
    put_status := fun _ => 201,
    walk_exc := none,
    joinpath := fun r f => r ++ "/" ++ f,
    relpath := fun p s => String.mk (p.data.drop (s.data.length + 1)) }

/-- Node dependency descriptor of the catalog, used to instantiate the
dependency-classification theorem at concrete inputs. -/
def nodeDepW : DependencyDescriptor :=
  { name := "node", check_command := "node --version",
    required_version := some ">=14.0.0", install_commands := nodeInstall }

/-! Helper lemmas. -/

lemma isPfx_cons_false (c : Char) (cs s : List Char) (h : c ∉ s) :
    isPfx (c :: cs) s = false := by
  cases s with
  | nil => rfl
  | cons a as =>
    have hc : ¬(c = a) := fun hh => h (hh ▸ List.mem_cons_self c as)
    simp [isPfx, hc]

lemma replaceFuel_no_head (p : Char) (ps repl : List Char) :
    ∀ (fuel : Nat) (s : List Char), s.length ≤ fuel → p ∉ s →
      replaceFuel (p :: ps) repl fuel s = s := by
  intro fuel
  induction fuel with
  | zero =>
    intro s hs _
    cases s with
    | nil => rfl
    | cons c rest => simp at hs
  | succ f ih =>
    intro s hs hp
    cases s with
    | nil => rfl
    | cons c rest =>
      have hfalse : isPfx (p :: ps) (c :: rest) = false := isPfx_cons_false p ps _ hp
      simp only [replaceFuel, hfalse, Bool.false_eq_true, not_false_iff, ite_false]
      exact congrArg (c :: ·)
        (ih rest (Nat.le_of_succ_le_succ (by simpa using hs))
          (fun hh => hp (List.mem_cons_of_mem c hh)))

lemma removeAll_not_mem (p : Char) (ps s : List Char) (h : p ∉ s) :
    replaceAllL (p :: ps) [] s = s :=
  replaceFuel_no_head p ps [] s.length s (Nat.le_refl _) h

lemma removeGE_ge (v : List Char) (h : '>' ∉ v) :
    replaceAllL ['>', '='] [] ('>' :: '=' :: v) = v := by
  show replaceFuel ['>', '='] [] ('>' :: '=' :: v).length ('>' :: '=' :: v) = v
  simp only [List.length_cons]
  simp only [replaceFuel, isPfx]
  simp only [List.drop_succ_cons, List.drop_zero, List.nil_append]
  rw [if_pos (by simp [isPfx])]
  exact replaceFuel_no_head '>' ['='] [] (v.length + 1) v (Nat.le_succ _) h

lemma removeGE_gt (v : List Char) (hgt : '>' ∉ v) (heq : '=' ∉ v) :
    replaceAllL ['>', '='] [] ('>' :: v) = '>' :: v := by
  show replaceFuel ['>', '='] [] ('>' :: v).length ('>' :: v) = '>' :: v
  simp only [List.length_cons]
  have hfalse : isPfx ['>', '='] ('>' :: v) = false := by
    simp [isPfx, isPfx_cons_false '=' [] v heq]
  simp only [replaceFuel, hfalse, Bool.false_eq_true, if_false]
  exact congrArg ('>' :: ·) (replaceFuel_no_head '>' ['='] [] v.length v (Nat.le_refl _) hgt)

lemma removeGE_eq (v : List Char) (hgt : '>' ∉ v) :
    replaceAllL ['>', '='] [] ('=' :: v) = '=' :: v := by
  have : '>' ∉ ('=' :: v) := by simp [hgt]
  exact removeAll_not_mem '>' ['='] _ this

lemma removeChar_match (c : Char) (v : List Char) (h : c ∉ v) :
    replaceAllL [c] [] (c :: v) = v := by
  show replaceFuel [c] [] (c :: v).length (c :: v) = v
  simp only [List.length_cons]
  simp only [replaceFuel, isPfx]
  rw [if_pos (by simp [isPfx])]
  simp only [List.length_nil, List.drop_zero, List.nil_append]
  exact replaceFuel_no_head c [] [] v.length v (Nat.le_refl _) h

lemma removeGT_eqHead (v : List Char) (hgt : '>' ∉ v) :
    replaceAllL ['>'] [] ('=' :: v) = '=' :: v := by
  have : '>' ∉ ('=' :: v) := by simp [hgt]
  exact removeAll_not_mem '>' [] _ this

lemma required_clean_ops (v : List Char) (hv : ∀ ch ∈ v, ch ≠ '>' ∧ ch ≠ '=') :
    required_clean ('>' :: '=' :: v) = stripWs v
    ∧ required_clean ('>' :: v) = stripWs v
    ∧ required_clean ('=' :: v) = stripWs v
    ∧ required_clean v = stripWs v := by
  have hgt : '>' ∉ v := fun h => ((hv _ h).1) rfl
  have heq : '=' ∉ v := fun h => ((hv _ h).2) rfl
  refine ⟨?_, ?_, ?_, ?_⟩
  · unfold required_clean
    rw [show (">=".data) = ['>', '='] from rfl, show (">".data) = ['>'] from rfl,
        show ("=".data) = ['='] from rfl]
    rw [removeGE_ge v hgt, removeAll_not_mem '>' [] v hgt, removeAll_not_mem '=' [] v heq]
  · unfold required_clean
    rw [show (">=".data) = ['>', '='] from rfl, show (">".data) = ['>'] from rfl,
        show ("=".data) = ['='] from rfl]
    rw [removeGE_gt v hgt heq, removeChar_match '>' v hgt, removeAll_not_mem '=' [] v heq]
  · unfold required_clean
    rw [show (">=".data) = ['>', '='] from rfl, show (">".data) = ['>'] from rfl,
        show ("=".data) = ['='] from rfl]
    rw [removeGE_eq v hgt, removeGT_eqHead v hgt, removeChar_match '=' v heq]
  · unfold required_clean
    rw [show (">=".data) = ['>', '='] from rfl, show (">".data) = ['>'] from rfl,
        show ("=".data) = ['='] from rfl]
    rw [removeAll_not_mem '>' ['='] v hgt, removeAll_not_mem '>' [] v hgt,
        removeAll_not_mem '=' [] v heq]

lemma apiPut_mem_altUploadActs (env : PushEnv) (repo : String) :
    ∀ (l : List WalkFile), ∀ wf ∈ l, pyStartsWith "." wf.file = false →
      (env.read_file (env.joinpath wf.root wf.file)).isSome →
      UploadAction.apiPut (env.relpath (env.joinpath wf.root wf.file) repo)
        ∈ altUploadActs env repo l := by
  intro l
  induction l with
  | nil => intro wf h; simp at h
  | cons a as ih =>
    intro wf hmem hdot hread
    rcases List.mem_cons.mp hmem with h | h
    · subst h
      rw [altUploadActs, hdot]
      simp only [Bool.false_eq_true, if_false]
      rcases hx : env.read_file (env.joinpath wf.root wf.file) with _ | y
      · rw [hx] at hread; simp at hread
      · exact List.mem_cons_self _ _
    · have tail := ih wf h hdot hread
      rw [altUploadActs]
      rcases hdot2 : pyStartsWith "." a.file with _ | _
      · simp only [Bool.false_eq_true, if_false]
        rcases hx : env.read_file (env.joinpath a.root a.file) with _ | y
        · exact tail
        · exact List.mem_cons_of_mem _ tail
      · simp only [if_true]
        exact tail

/-! Claim theorems. -/

/-- C1 (code evaluated at the failing input): in a django run whose "django"
dependency is classified Outdated (current 3.0.0 against required >=4.0.0),
the orchestrator does not fail at the dependency phase: it proceeds to execute
the scaffold command and both post-scaffold commands, and the call then ends
in an escaping TypeError rather than in the structured dependency-failure
result the claim describes.  Only Missing dependencies are filtered at line
214 of ultimateEnhancedHerbie.py; Outdated ones are ignored. -/
theorem c1_outdated_dependency_not_failed_fast :
    (check_framework_dependencies "linux" "django" envC1.dep_runs).map
        (fun d => (d.name, d.status))
      = [("python", DependencyStatus.available), ("pip", DependencyStatus.available),
         ("django", DependencyStatus.outdated)]
    ∧ ((execute_framework_setup_real envC1 "django" "demoproj"
          ⟨"/home/user", []⟩).2.execution_history.map (fun r => r.command)
        = ["django-admin startproject demoproj", "python manage.py migrate",
           "python manage.py runserver"])
    ∧ (execute_framework_setup_real envC1 "django" "demoproj" ⟨"/home/user", []⟩).1
        = Except.error "TypeError: __init__() got an unexpected keyword argument 'project_name'" :=
  ⟨by decide, by decide, by rfl⟩

/-- C2 (code evaluated at the failing input): in a react run whose node
dependency is Missing, the phase body raises a TypeError (the
FrameworkSetupResult construction at line 218 passes keyword arguments the
dataclass does not declare), and the top-level handler — whose own
construction at line 267 has the same defect — re-raises instead of returning
a structured failed outcome, so the public entry point lets the exception
escape to the caller. -/
theorem c2_exception_escapes_entry_point :
    bodyErrText (setupBody envC2 "react" "demo"
        { project_name := "demo", framework := "react" } ⟨"/home/user", []⟩)
      = some "TypeError: __init__() got an unexpected keyword argument 'project_name'"
    ∧ (execute_framework_setup_real envC2 "react" "demo" ⟨"/home/user", []⟩).1
      = Except.error "TypeError: __init__() got an unexpected keyword argument 'project_name'" :=
  ⟨by rfl, by rfl⟩

/-- C3: for every command, timeout and working directory, the executor's
timeout path yields a record with success=false, exit code -1 and error
"Timeout", and its unexpected-exception path yields a record with
success=false, the sentinel exit code -999 and the exception text as error;
in both cases a record is returned rather than an exception propagated. -/
theorem execute_command_failure_record_shape
    (env : ExecEnv) (cmd : String) (t : Nat) (wd : Option String) (st : ProcState) :
    ((execute_command env cmd t wd RunOutcome.timedOut st).1.success = false
      ∧ (execute_command env cmd t wd RunOutcome.timedOut st).1.exit_code = -1
      ∧ (execute_command env cmd t wd RunOutcome.timedOut st).1.error = "Timeout")
    ∧ (∀ e : String,
        (execute_command env cmd t wd (RunOutcome.raised e) st).1.success = false
        ∧ (execute_command env cmd t wd (RunOutcome.raised e) st).1.exit_code = -999
        ∧ (execute_command env cmd t wd (RunOutcome.raised e) st).1.error = e) :=
  ⟨⟨rfl, rfl, rfl⟩, fun e => ⟨rfl, rfl, rfl⟩⟩

/-- C4: on every path of the executor — success, non-zero exit, timeout and
unexpected exception alike — the process working directory after the call
equals the working directory observed before the call (the finally block
always restores it). -/
theorem execute_command_restores_cwd
    (env : ExecEnv) (cmd : String) (t : Nat) (wd : Option String)
    (oc : RunOutcome) (st : ProcState) :
    ((execute_command env cmd t wd oc st).2).cwd = st.cwd := rfl

/-- C5 (code evaluated at the failing input): in a react run where the
scaffold succeeds and remote repository creation fails (HTTP 422), the
context's success flag is indeed set and its github_url stays unset — but the
final-result construction then raises TypeError, so the call raises instead
of returning the succeeded context the claim describes. -/
theorem c5_remote_failure_raises_instead_of_partial_success :
    (bodyErrCtx (setupBody envC5 "react" "demo"
        { project_name := "demo", framework := "react" } ⟨"/home/user", []⟩)).map
        (fun c => (c.success, c.github_url, c.local_path))
      = some (true, none, some "/home/user/demo")
    ∧ (execute_framework_setup_real envC5 "react" "demo" ⟨"/home/user", []⟩).1
      = Except.error "TypeError: __init__() got an unexpected keyword argument 'project_name'" :=
  ⟨by rfl, by rfl⟩

/-- C6 (code evaluated at the failing input): in a react run that executes
two commands (scaffold and npm install), the executor's execution_history
receives exactly one record per attempted command, but the orchestrator
context's execution_log — which the claim says each record is appended to —
remains empty. -/
theorem c6_execution_log_never_appended :
    (bodyErrCtx (setupBody envC6 "react" "demo"
        { project_name := "demo", framework := "react" } ⟨"/home/user", []⟩)).map
        (fun c => c.execution_log)
      = some []
    ∧ (bodyErrSt (setupBody envC6 "react" "demo"
        { project_name := "demo", framework := "react" } ⟨"/home/user", []⟩)).map
        (fun s => s.execution_history.map (fun r => r.command))
      = some ["npx create-react-app demo", "npm install"] :=
  ⟨by rfl, by rfl⟩

/-- C7: check_dependency classifies a dependency as Missing when the check
command exits non-zero (with the OS-resolved install command), as Unknown when
the check raises (still carrying the install command), as Available on a zero
exit when no required version is declared or no version could be extracted,
and as Available or Outdated by the version comparison when both a required
and an extracted current version exist. -/
theorem check_dependency_classification
    (os : String) (dep : DependencyDescriptor) (rc : Int) (out err msg : String) :
    (rc ≠ 0 → (check_dependency os dep (CheckRun.ran rc out err)).status = DependencyStatus.missing
      ∧ (check_dependency os dep (CheckRun.ran rc out err)).install_command
          = dictGet dep.install_commands os)
    ∧ ((check_dependency os dep (CheckRun.exc msg)).status = DependencyStatus.unknown
      ∧ (check_dependency os dep (CheckRun.exc msg)).install_command
          = dictGet dep.install_commands os)
    ∧ (rc = 0 → dep.required_version = none ∨ _extract_version out = none →
        (check_dependency os dep (CheckRun.ran rc out err)).status = DependencyStatus.available)
    ∧ (∀ r c, rc = 0 → dep.required_version = some r → _extract_version out = some c →
        (check_dependency os dep (CheckRun.ran rc out err)).status
          = (if _compare_versions c r then DependencyStatus.available
             else DependencyStatus.outdated)) := by
  refine ⟨?_, ⟨rfl, rfl⟩, ?_, ?_⟩
  · intro h
    simp [check_dependency, h]
  · rintro rfl h
    rcases h with h | h <;> simp [check_dependency, h]
  · rintro r c rfl h1 h2
    simp [check_dependency, h1, h2]

/-- C7 witness: the classification theorem instantiated at the catalog's node
descriptor on Linux — exit 1 gives Missing, an exception gives Unknown (both
with the Linux install command), a version-free stdout gives Available, and
stdout v13.0.0 against >=14.0.0 gives Outdated. -/
theorem check_dependency_classification_witness :
    ((check_dependency "linux" nodeDepW (CheckRun.ran 1 "" "")).status = DependencyStatus.missing
      ∧ (check_dependency "linux" nodeDepW (CheckRun.ran 1 "" "")).install_command
          = dictGet nodeDepW.install_commands "linux")
    ∧ (check_dependency "linux" nodeDepW (CheckRun.exc "spawn failure")).status
        = DependencyStatus.unknown
    ∧ (check_dependency "linux" nodeDepW (CheckRun.ran 0 "weird output" "")).status
        = DependencyStatus.available
    ∧ (check_dependency "linux" nodeDepW (CheckRun.ran 0 "v13.0.0" "")).status
        = DependencyStatus.outdated :=
  ⟨(check_dependency_classification "linux" nodeDepW 1 "" "" "x").1 (by decide),
   ((check_dependency_classification "linux" nodeDepW 1 "" "" "spawn failure").2.1).1,
   (check_dependency_classification "linux" nodeDepW 0 "weird output" "" "x").2.2.1 rfl
     (Or.inr (by decide)),
   ((check_dependency_classification "linux" nodeDepW 0 "v13.0.0" "" "x").2.2.2
       ">=14.0.0" "13.0.0" rfl rfl (by decide)).trans (by decide)⟩

/-- C8: the version comparator evaluates the claim's three concrete examples
as stated, and in general — whenever both sides parse — it compares the
dot-separated integer tuples, zero-padded to equal length, with a
greater-or-equal test after stripping the operator; whenever either side
fails to parse it returns true (assume satisfied). -/
theorem compare_versions_spec :
    _compare_versions "14.2.0" ">=14.0.0" = true
    ∧ _compare_versions "13.9.0" ">=14.0.0" = false
    ∧ _compare_versions "14" ">=14.0.0" = true
    ∧ (∀ (current required : String) (cp rp : List Int),
        parsePartsL current.data = some cp →
        parsePartsL (required_clean required.data) = some rp →
        _compare_versions current required
          = pyListGe (padTo (max cp.length rp.length) cp)
              (padTo (max cp.length rp.length) rp))
    ∧ (∀ (current required : String),
        parsePartsL current.data = none ∨ parsePartsL (required_clean required.data) = none →
        _compare_versions current required = true) := by
  refine ⟨by decide, by decide, by decide, ?_, ?_⟩
  · intro current required cp rp h1 h2
    simp [_compare_versions, h1, h2]
  · intro current required h
    rcases h with h | h <;> simp [_compare_versions, h]

/-- C8 witness: the general clauses instantiated at concrete versions —
"1.2" against "1.10" parses on both sides and compares false, and the
non-numeric current version "1.x" yields true. -/
theorem compare_versions_spec_witness :
    _compare_versions "1.2" "1.10" = false ∧ _compare_versions "1.x" "1.0" = true :=
  ⟨(compare_versions_spec.2.2.2.1 "1.2" "1.10" [1, 2] [1, 10]
      (by decide) (by decide)).trans (by decide),
   compare_versions_spec.2.2.2.2 "1.x" "1.0" (Or.inl (by decide))⟩

/-- C9 counterexample: in the Enhanced orchestrator's code-upload phase
(_execute_code_upload, ultimateEnhancedHerbie.py lines 377-418), when the
first command of the git push sequence fails the phase simply returns
failure: the only attempted command is "git init" and nothing further — in
particular no per-file upload through the hosting HTTP API — is attempted,
contradicting the claim as stated for this code-upload phase. -/
theorem c9_ultimate_code_upload_no_fallback :
    (_execute_code_upload envC9u "demo" "ghp_secret" ctxC9u ⟨"/home/user", []⟩ 0).1 = false
    ∧ ((_execute_code_upload envC9u "demo" "ghp_secret" ctxC9u
          ⟨"/home/user", []⟩ 0).2.1.execution_history.map (fun r => r.command))
        = ["git init"] :=
  ⟨by rfl, by decide⟩

/-- C9 as amended: in the HerbieAgent project-creation flow (herbie.py lines
1103-1107), whenever the primary git push sequence fails, the alternate
strategy — uploading the project's files individually through the GitHub
contents API — is attempted automatically, with no user interaction between
the two calls: the upload step's trace is the push trace followed by the
whole fallback trace, its outcome is the fallback's outcome, and the fallback
PUTs every non-hidden readable file yielded by the walk. -/
theorem c9_herbie_fallback_automatic (env : PushEnv) (repo : String)
    (h : (push_local_to_repo env repo).1 = false) :
    (upload_code_step env repo).1 = (push_local_to_repo_alternative env repo).1
    ∧ (upload_code_step env repo).2
        = (push_local_to_repo env repo).2 ++ (push_local_to_repo_alternative env repo).2
    ∧ (∀ wf ∈ env.walk, pyStartsWith "." wf.file = false →
        (env.read_file (env.joinpath wf.root wf.file)).isSome →
        env.walk_exc = none → env.dir_exists repo = true →
        UploadAction.apiPut (env.relpath (env.joinpath wf.root wf.file) repo)
          ∈ (upload_code_step env repo).2) := by
  refine ⟨by simp [upload_code_step, h], by simp [upload_code_step, h], ?_⟩
  intro wf hmem hdot hread hexc hdir
  have hmem2 : UploadAction.apiPut (env.relpath (env.joinpath wf.root wf.file) repo)
      ∈ altUploadActs env repo env.walk :=
    apiPut_mem_altUploadActs env repo env.walk wf hmem hdot hread
  have halt : push_local_to_repo_alternative env repo = (true, altUploadActs env repo env.walk) := by
    simp [push_local_to_repo_alternative, hdir, hexc]
  have : (upload_code_step env repo).2
      = (push_local_to_repo env repo).2 ++ altUploadActs env repo env.walk := by
    simp [upload_code_step, h, halt]
  rw [this]
  exact List.mem_append_right _ hmem2

/-- C9 witness: the amended theorem applied to a concrete environment in
which the push sequence fails at its first command and the walk yields
README.md — the fallback API upload of README.md appears in the trace. -/
theorem c9_herbie_fallback_automatic_witness :
    (push_local_to_repo envC9w "demo").1 = false
    ∧ UploadAction.apiPut "README.md" ∈ (upload_code_step envC9w "demo").2 :=
  ⟨by decide,
   (c9_herbie_fallback_automatic envC9w "demo" (by decide)).2.2
     { root := "demo", file := "README.md" } (by decide) (by decide) (by decide) rfl rfl⟩

/-- C10: the version comparator ignores which comparison operator the
required string declares — for a version string free of operator characters,
prefixing it with ">=", ">" or "=" never changes the verdict, which is always
the greater-or-equal test; in particular the strict requirement ">4.0.0" is
reported satisfied by the exactly-equal "4.0.0", and the exact requirement
"=4.0.0" is reported satisfied by the greater "5.0.0". -/
theorem compare_versions_ignores_operator :
    (∀ (current v : String), (∀ ch ∈ v.data, ch ≠ '>' ∧ ch ≠ '=') →
      _compare_versions current (">=" ++ v) = _compare_versions current v
      ∧ _compare_versions current (">" ++ v) = _compare_versions current v
      ∧ _compare_versions current ("=" ++ v) = _compare_versions current v)
    ∧ _compare_versions "4.0.0" ">4.0.0" = true
    ∧ _compare_versions "5.0.0" "=4.0.0" = true := by
  refine ⟨?_, by decide, by decide⟩
  intro current v hv
  obtain ⟨h1, h2, h3, h4⟩ := required_clean_ops v.data hv
  refine ⟨?_, ?_, ?_⟩
  · unfold _compare_versions
    rw [String.data_append, show (">=".data) = ['>', '='] from rfl]
    simp only [List.cons_append, List.nil_append] at h1 ⊢
    rw [h1, h4]
  · unfold _compare_versions
    rw [String.data_append, show (">".data) = ['>'] from rfl]
    simp only [List.cons_append, List.nil_append] at h2 ⊢
    rw [h2, h4]
  · unfold _compare_versions
    rw [String.data_append, show ("=".data) = ['='] from rfl]
    simp only [List.cons_append, List.nil_append] at h3 ⊢
    rw [h3, h4]

/-- C10 witness: the operator-insensitivity clause applied at current
"4.0.0" and version "4.0.0", whose characters are free of operators. -/
theorem compare_versions_ignores_operator_witness :
    _compare_versions "4.0.0" (">" ++ "4.0.0") = _compare_versions "4.0.0" "4.0.0" :=
  (compare_versions_ignores_operator.1 "4.0.0" "4.0.0" (by decide)).2.1

end Herbie
